import Mathlib

/-!
Verification of the hifitime `Duration`/`Epoch` specification against a shallow
embedding of `src/duration.rs` and `src/epoch.rs`.

Machine-integer conventions used throughout the embedding:
* `u64` values are `Nat` together with explicit wrap-around (`% 2 ^ 64`) at every
  operation the Rust release build would let wrap;
* `i16`, `i64`, `i32` values are `Int` with explicit checked/wrapping operations
  mirroring the Rust source (`checked_add`, unchecked `-=`, `as` casts);
* `i128`/`u64` conversions keep exact `Int`/`Nat` values (the claims evaluated
  here never exceed 128 bits).
-/

set_option maxRecDepth 100000
set_option maxHeartbeats 1000000

/-- Rust `NANOSECONDS_PER_CENTURY = 36_525 * 86_400 * 10^9` (`src/duration.rs`). -/
def NANOSECONDS_PER_CENTURY : Nat := 36525 * 86400 * 1000000000

/-- Reinterpretation of an `i16` value as a `u64` (Rust `as u64` sign-extends to
64 bits and reinterprets the two's-complement pattern). -/
def i16_as_u64 (x : Int) : Nat := (x % (2 ^ 64 : Int)).toNat

/-- Wrapping `i16` arithmetic (Rust release-mode overflow semantics). -/
def i16_wrap (x : Int) : Int := (x + 32768) % 65536 - 32768

/-- Wrapping `i32` arithmetic (Rust release-mode overflow semantics). -/
def i32_wrap (x : Int) : Int := (x + 2 ^ 31) % (2 ^ 32 : Int) - 2 ^ 31

/-- Wrapping `i64` arithmetic (Rust release-mode overflow semantics). -/
def i64_wrap (x : Int) : Int := (x + 2 ^ 63) % (2 ^ 64 : Int) - 2 ^ 63

/-- Wrapping `u64` addition. -/
def u64_add (a b : Nat) : Nat := (a + b) % (2 ^ 64)

/-- Wrapping `u64` subtraction (`a - b` with borrow wrap-around). -/
def u64_sub (a b : Nat) : Nat := (a + 2 ^ 64 - b) % (2 ^ 64)

/-- Rust `i16::checked_add`: `none` exactly when the mathematical sum leaves the
`i16` range. -/
def i16_checked_add (a b : Int) : Option Int :=
  if -32768 ≤ a + b ∧ a + b ≤ 32767 then some (a + b) else none

/-- Rust `i16::checked_sub`: `none` exactly when the mathematical difference leaves
the `i16` range. -/
def i16_checked_sub (a b : Int) : Option Int :=
  if -32768 ≤ a - b ∧ a - b ≤ 32767 then some (a - b) else none

/-- The two fields of `Duration` (`src/duration.rs` lines 31-35): an `i16`
number of centuries and a `u64` count of nanoseconds into that century. -/
structure Duration where
  centuries : Int
  nanoseconds : Nat
deriving DecidableEq, Repr

/-- Rust `Duration::ZERO`. -/
def Duration.ZERO : Duration := ⟨0, 0⟩

/-- Rust `Duration::MAX` (`centuries = i16::MAX`, `nanoseconds = NANOSECONDS_PER_CENTURY`). -/
def Duration.MAX : Duration := ⟨32767, NANOSECONDS_PER_CENTURY⟩

/-- Rust `Duration::MIN` (`centuries = i16::MIN`, `nanoseconds = NANOSECONDS_PER_CENTURY`). -/
def Duration.MIN : Duration := ⟨-32768, NANOSECONDS_PER_CENTURY⟩

/-- Rust `Duration::EPSILON` (one nanosecond). -/
def Duration.EPSILON : Duration := ⟨0, 1⟩

/-- Rust `Duration::MIN_POSITIVE = EPSILON`. -/
def Duration.MIN_POSITIVE : Duration := Duration.EPSILON

/-- Rust `Duration::MIN_NEGATIVE` (minus one nanosecond). -/
def Duration.MIN_NEGATIVE : Duration := ⟨-1, NANOSECONDS_PER_CENTURY - 1⟩

/-- Rust `Duration::normalize` (`src/duration.rs` lines 59-95).  The guard casts
`(i16::MAX - centuries) as u64` / `(i16::MIN - centuries) as u64` are embedded
with the two's-complement reinterpretation `i16_as_u64`. -/
def Duration.normalize (d : Duration) : Duration :=
  let extra_centuries := d.nanoseconds / NANOSECONDS_PER_CENTURY
  if extra_centuries > 0 then
    let rem_nanos := d.nanoseconds % NANOSECONDS_PER_CENTURY
    if d.centuries = -32768 ∧ rem_nanos > 0 then
      Duration.MIN
    else if d.centuries = 32767 ∧ rem_nanos > 0 then
      Duration.MAX
    else if d.centuries ≥ 0 then
      if i16_as_u64 (32767 - d.centuries) ≥ extra_centuries then
        ⟨d.centuries + extra_centuries, rem_nanos⟩
      else
        Duration.MAX
    else
      if i16_as_u64 (-32768 - d.centuries) ≥ extra_centuries then
        ⟨d.centuries + extra_centuries, rem_nanos⟩
      else
        Duration.MIN
  else d

/-- Rust `Duration::from_parts`. -/
def Duration.from_parts (centuries : Int) (nanoseconds : Nat) : Duration :=
  Duration.normalize ⟨centuries, nanoseconds⟩

/-- Rust `Duration::to_parts`. -/
def Duration.to_parts (d : Duration) : Int × Nat := (d.centuries, d.nanoseconds)

/-- Rust `Duration::from_total_nanoseconds` (`src/duration.rs` lines 115-133):
Euclidean division of the `i128` input (`div_euclid`/`rem_euclid` are
Euclidean `/`/`%` on `Int`), saturating when the quotient leaves the `i16` range. -/
def Duration.from_total_nanoseconds (nanos : Int) : Duration :=
  if nanos = 0 then Duration.ZERO
  else
    let centuries_i128 := nanos / (NANOSECONDS_PER_CENTURY : Int)
    let remaining_nanos_i128 := nanos % (NANOSECONDS_PER_CENTURY : Int)
    if centuries_i128 > 32767 then Duration.MAX
    else if centuries_i128 < -32768 then Duration.MIN
    else Duration.from_parts centuries_i128 remaining_nanos_i128.toNat

/-- Rust `Duration::total_nanoseconds` (`src/duration.rs` lines 137-148).  The
`u64` subtraction `NANOSECONDS_PER_CENTURY - nanoseconds` in the `-1` branch is
embedded with wrap-around. -/
def Duration.total_nanoseconds (d : Duration) : Int :=
  if d.centuries = -1 then
    -(u64_sub NANOSECONDS_PER_CENTURY d.nanoseconds : Int)
  else if d.centuries ≥ 0 then
    d.centuries * (NANOSECONDS_PER_CENTURY : Int) + d.nanoseconds
  else
    (d.centuries + 1) * (NANOSECONDS_PER_CENTURY : Int) + d.nanoseconds

/-- Rust `Errors` (modelled from the spec, §6: the error surface is a finite tagged
type; only the variants reachable from the embedded functions are needed). -/
inductive Errors where
  | Overflow
  | Carry
deriving DecidableEq, Repr

/-- Rust `Duration::try_truncated_nanoseconds` (`src/duration.rs` lines 151-169).
The `i64` arithmetic of the two recomposition branches is wrapped
(`i64_wrap`), matching Rust release-mode overflow. -/
def Duration.try_truncated_nanoseconds (d : Duration) : Except Errors Int :=
  if 3 ≤ d.centuries.natAbs then .error .Overflow
  else if d.centuries = -1 then
    .ok (-(u64_sub NANOSECONDS_PER_CENTURY d.nanoseconds : Int))
  else if d.centuries ≥ 0 then
    .ok (i64_wrap (d.centuries * (NANOSECONDS_PER_CENTURY : Int) + d.nanoseconds))
  else
    .ok (i64_wrap ((d.centuries + 1) * (NANOSECONDS_PER_CENTURY : Int) + d.nanoseconds))

/-- Rust `Duration::truncated_nanoseconds` (saturates to `i64::MIN`/`i64::MAX`). -/
def Duration.truncated_nanoseconds (d : Duration) : Int :=
  match d.try_truncated_nanoseconds with
  | .ok val => val
  | .error _ => if d.centuries < 0 then -(2 ^ 63) else 2 ^ 63 - 1

/-- Rust `Duration::from_truncated_nanoseconds` (`src/duration.rs` lines 189-205).
`nanos.abs() as u64` is `Int.natAbs` (also correct for `i64::MIN`, whose
wrapping absolute value reinterprets to `2^63`). -/
def Duration.from_truncated_nanoseconds (nanos : Int) : Duration :=
  if nanos < 0 then
    let ns := nanos.natAbs
    let extra_centuries := ns / NANOSECONDS_PER_CENTURY
    if extra_centuries > 32767 then Duration.MIN
    else
      let rem_nanos := ns % NANOSECONDS_PER_CENTURY
      Duration.from_parts (-1 - extra_centuries) (NANOSECONDS_PER_CENTURY - rem_nanos)
  else Duration.from_parts 0 nanos.natAbs

/-- Rust `Duration::signum` (`src/duration.rs` lines 256-260): the sign of the
`centuries` field alone. -/
def Duration.signum (d : Duration) : Int := d.centuries.sign

/-- Rust `div_rem_i64` / `div_rem_i128` (`src/duration.rs` lines 879-885):
`div_euclid`/`rem_euclid` pairs. -/
def div_rem_int (me rhs : Int) : Int × Int := (me / rhs, me % rhs)

/-- Rust `Duration::decompose` (`src/duration.rs` lines 262-319): sign then
days/hours/minutes/seconds/ms/us/ns of the absolute value. -/
def Duration.decompose (d : Duration) :
    Int × Nat × Nat × Nat × Nat × Nat × Nat × Nat :=
  let sign := d.signum
  let total_ns : Int :=
    match d.try_truncated_nanoseconds with
    | .ok total_ns => total_ns
    | .error _ => d.total_nanoseconds
  let ns_left := (total_ns.natAbs : Int)
  let (days, ns_left) := div_rem_int ns_left (86400 * 1000000000)
  let (hours, ns_left) := div_rem_int ns_left (3600 * 1000000000)
  let (minutes, ns_left) := div_rem_int ns_left (60 * 1000000000)
  let (seconds, ns_left) := div_rem_int ns_left 1000000000
  let (milliseconds, ns_left) := div_rem_int ns_left 1000000
  let (microseconds, ns_left) := div_rem_int ns_left 1000
  (sign, days.toNat, hours.toNat, minutes.toNat, seconds.toNat,
    milliseconds.toNat, microseconds.toNat, ns_left.toNat)

/-- Rust `impl PartialEq for Duration` (`src/duration.rs` lines 37-56), including
the zero-crossing special case.  `(self.centuries - other.centuries).abs()`
is `i16` arithmetic, hence the wrap. -/
def Duration.beq (d other : Duration) : Bool :=
  if d.centuries = other.centuries then
    d.nanoseconds = other.nanoseconds
  else if (i16_wrap (d.centuries - other.centuries)).natAbs = 1
      ∧ (d.centuries = 0 ∨ other.centuries = 0) then
    if d.centuries < 0 then
      u64_sub NANOSECONDS_PER_CENTURY d.nanoseconds = other.nanoseconds
    else
      u64_sub NANOSECONDS_PER_CENTURY other.nanoseconds = d.nanoseconds
  else false

/-- Rust's `Ord::cmp` on a primitive integer: three-way comparison. -/
def ord_cmp_int (a b : Int) : Ordering :=
  if a < b then .lt else if a = b then .eq else .gt

/-- Three-way comparison on `u64` values. -/
def ord_cmp_nat (a b : Nat) : Ordering :=
  if a < b then .lt else if a = b then .eq else .gt

/-- The `#[derive(PartialOrd, Ord)]` comparison on `Duration`
(`src/duration.rs` line 31): lexicographic on `(centuries, nanoseconds)`. -/
def Duration.cmp (d other : Duration) : Ordering :=
  match ord_cmp_int d.centuries other.centuries with
  | .eq => ord_cmp_nat d.nanoseconds other.nanoseconds
  | o => o

/-- Rust `impl Add for Duration` (`src/duration.rs` lines 545-570): checked `i16`
addition of centuries (any overflow returns `MAX`), wrapping `u64` addition of
nanoseconds, then normalization. -/
def Duration.add (d rhs : Duration) : Duration :=
  match i16_checked_add d.centuries rhs.centuries with
  | none => Duration.MAX
  | some centuries =>
      Duration.normalize ⟨centuries, u64_add d.nanoseconds rhs.nanoseconds⟩

/-- Rust `impl Sub for Duration` (`src/duration.rs` lines 578-613): checked `i16`
subtraction of centuries (any overflow returns `MIN`); on nanosecond borrow the
century is decremented (unchecked `-= 1`, hence `i16_wrap`) and
`NANOSECONDS_PER_CENTURY` added back; otherwise, when the minuend is
non-negative and the subtrahend negative, one extra nanosecond is added. -/
def Duration.sub (d rhs : Duration) : Duration :=
  match i16_checked_sub d.centuries rhs.centuries with
  | none => Duration.MIN
  | some centuries =>
      if d.nanoseconds < rhs.nanoseconds then
        Duration.normalize
          ⟨i16_wrap (centuries - 1),
            u64_sub (u64_add d.nanoseconds NANOSECONDS_PER_CENTURY) rhs.nanoseconds⟩
      else
        if d.centuries ≥ 0 ∧ rhs.centuries < 0 then
          Duration.normalize ⟨centuries, u64_add (d.nanoseconds - rhs.nanoseconds) 1⟩
        else
          Duration.normalize ⟨centuries, d.nanoseconds - rhs.nanoseconds⟩

/-- Rust `Unit` (`src/duration.rs` lines 823-834).  Named `TimeUnit` here because
`Unit` is taken by the Lean prelude. -/
inductive TimeUnit where
  | Century
  | Day
  | Hour
  | Minute
  | Second
  | Millisecond
  | Microsecond
  | Nanosecond
deriving DecidableEq, Repr

/-- The exact nanosecond count of each `Unit` (the `NANOSECONDS_PER_*`
constants of `src/duration.rs` lines 13-20). -/
def TimeUnit.factor : TimeUnit → Nat
  | .Century => NANOSECONDS_PER_CENTURY
  | .Day => 86400 * 1000000000
  | .Hour => 3600 * 1000000000
  | .Minute => 60 * 1000000000
  | .Second => 1000000000
  | .Millisecond => 1000000
  | .Microsecond => 1000
  | .Nanosecond => 1

/-- Rust `i128::saturating_mul`. -/
def i128_sat_mul (a b : Int) : Int :=
  max (-(2 ^ 127)) (min (2 ^ 127 - 1) (a * b))

/-- Rust `i128::saturating_div` (saturation is only reachable at `MIN / -1`). -/
def i128_sat_div (a b : Int) : Int :=
  max (-(2 ^ 127)) (min (2 ^ 127 - 1) (a.tdiv b))

/-- Rust `impl Mul<i64> for Unit` (macro `impl_ops_for_type!(i64)`,
`src/duration.rs` lines 404-426): the product `q * NANOSECONDS_PER_*` is `i64`
arithmetic (wrapping), and the result is built from truncated or total
nanoseconds depending on `total_ns.abs() < i64::MAX`. -/
def TimeUnit.mul_i64 (u : TimeUnit) (q : Int) : Duration :=
  let total_ns := i64_wrap (q * u.factor)
  if total_ns.natAbs < 2 ^ 63 - 1 then
    Duration.from_truncated_nanoseconds total_ns
  else
    Duration.from_total_nanoseconds total_ns

/-- Rust `impl Mul<i64> for Duration` (`src/duration.rs` lines 365-373):
`from_total_nanoseconds(self.total_nanoseconds().saturating_mul((q * Unit::Nanosecond).total_nanoseconds()))`. -/
def Duration.mul_i64 (d : Duration) (q : Int) : Duration :=
  Duration.from_total_nanoseconds
    (i128_sat_mul d.total_nanoseconds (TimeUnit.Nanosecond.mul_i64 q).total_nanoseconds)

/-- The exact value of a finite `f64`, as an explicit fraction (every finite
double is rational).  The embedding computes with the exact values; at every
point where a theorem below evaluates an `f64` operation, the IEEE-754 result
is itself exact (integral operands below `2^53`, or products whose odd part
stays below `2^53`), so the exact model agrees with the machine arithmetic.
The one genuinely lossy step on the evaluated paths — the `u64 as f64` cast in
`from_gpst_nanoseconds` — is modelled by the explicit rounding `u64_as_f64`.
Denominators are always positive by construction. -/
structure F64 where
  num : Int
  den : Nat
deriving DecidableEq, Repr

/-- Embed an integer-valued `f64`. -/
def F64.ofInt (n : Int) : F64 := ⟨n, 1⟩

/-- Exact `f64` multiplication. -/
def F64.mul (a b : F64) : F64 := ⟨a.num * b.num, a.den * b.den⟩

/-- Exact `f64` addition. -/
def F64.add (a b : F64) : F64 := ⟨a.num * b.den + b.num * a.den, a.den * b.den⟩

/-- Rust `f64` comparison `a ≤ b` (exact on the rational values). -/
def F64.le (a b : F64) : Bool := a.num * b.den ≤ b.num * a.den

/-- Rust `f64` comparison `a < b` (exact on the rational values). -/
def F64.lt (a b : F64) : Bool := a.num * b.den < b.num * a.den

/-- Rust `f64::abs`. -/
def F64.abs (a : F64) : F64 := ⟨|a.num|, a.den⟩

/-- Rust's float → integer `as` cast: truncation toward zero (the saturation
bounds are never reached behind the `< i64::MAX as f64` guards below). -/
def F64.trunc (a : F64) : Int := a.num.tdiv a.den

/-- Rust `impl Mul<f64> for Unit` (macro `impl_ops_for_type!(f64)`,
`src/duration.rs` lines 404-426): scale by the unit's nanosecond count and
build the duration from truncated or total nanoseconds depending on
`total_ns.abs() < i64::MAX as f64`.  `i64::MAX as f64` rounds up to `2^63`,
hence the guard constant. -/
def TimeUnit.mul_f64 (u : TimeUnit) (q : F64) : Duration :=
  let total_ns := q.mul (F64.ofInt u.factor)
  if total_ns.abs.lt (F64.ofInt (2 ^ 63)) then
    Duration.from_truncated_nanoseconds total_ns.trunc
  else
    Duration.from_total_nanoseconds total_ns.trunc

/-- Rust `Duration::from_f64(value, unit) = unit * value` (`src/duration.rs`
lines 209-211). -/
def Duration.from_f64 (value : F64) (u : TimeUnit) : Duration :=
  u.mul_f64 value

/-- Rust `Duration::in_seconds` (`src/duration.rs` lines 216-227), called
`to_seconds` at its use sites in `src/epoch.rs`: split whole seconds from
sub-second nanoseconds, add `centuries * SECONDS_PER_CENTURY` when the
centuries are non-zero.  Every instant at which the theorems below evaluate it
has an integral number of seconds below `2^53`, where the `f64` computation is
exact. -/
def Duration.to_seconds (d : Duration) : F64 :=
  let seconds := d.nanoseconds / 1000000000
  let subseconds := d.nanoseconds % 1000000000
  if d.centuries = 0 then
    (F64.ofInt seconds).add ((F64.ofInt subseconds).mul ⟨1, 1000000000⟩)
  else
    (((F64.ofInt d.centuries).mul (F64.ofInt 3155760000)).add
        (F64.ofInt seconds)).add
      ((F64.ofInt subseconds).mul ⟨1, 1000000000⟩)

/-- Rust `TimeScale`: TAI, UTC, TT, ET, TDB, GPST, GST (Galileo), BDT (BeiDou)
(spec §3; the enum itself lives outside `src/`). -/
inductive TimeScale where
  | TAI
  | TT
  | ET
  | TDB
  | UTC
  | GPST
  | GST
  | BDT
deriving DecidableEq, Repr

/-- Modelled from the spec: `TimeScale::uses_leap` (the `TimeScale` impl is not
under `src/`).  Spec §3 gives each scale a "uses leap seconds against UTC"
attribute; §4.3 states UTC applies the leap-second table while GPST, GST and
BDT have "no leap seconds". -/
def TimeScale.uses_leap : TimeScale → Bool
  | .UTC => true
  | _ => false

/-- Modelled from the spec: `TimeScale::tai_j1900_offset_seconds_i64` (the
`TimeScale` impl is not under `src/`).  Spec §3: "a fixed integer-second offset
from J1900 TAI to that scale's own reference epoch"; §4.3 fixes the reference
epochs: GPST 1980-01-06 00:00:00 UTC (= 00:00:19 TAI, 29224 days + 19 s after
J1900 = 2_524_953_619 s); GST 13 s before 1999-08-22 00:00:00 UTC
(= 36392 days + 32 s − 13 s = 3_144_268_819 s); BDT 2006-01-01 00:00:00 UTC
(= 38716 days + 33 s = 3_345_062_433 s); UTC shares the J1900 reference. -/
def TimeScale.tai_j1900_offset_seconds_i64 : TimeScale → Int
  | .GPST => 2524953619
  | .GST => 3144268819
  | .BDT => 3345062433
  | _ => 0

/-- Rust `Epoch` (`src/epoch.rs` lines 161-166): a TAI duration since J1900 plus
the time scale tag used at construction. -/
structure Epoch where
  duration_since_j1900_tai : Duration
  time_scale : TimeScale
deriving DecidableEq, Repr

instance {ε α : Type} [DecidableEq ε] [DecidableEq α] : DecidableEq (Except ε α) := fun a b =>
  match a, b with
  | .ok x, .ok y => decidable_of_iff (x = y) (by simp)
  | .error x, .error y => decidable_of_iff (x = y) (by simp)
  | .ok _, .error _ => isFalse (by simp)
  | .error _, .ok _ => isFalse (by simp)

/-- Rust `impl Sub for Epoch` (`src/epoch.rs` lines 168-174). -/
def Epoch.sub (e other : Epoch) : Duration :=
  Duration.sub e.duration_since_j1900_tai other.duration_since_j1900_tai

/-- Rust `impl PartialEq for Epoch` (`src/epoch.rs` lines 247-251): equality of the
canonical TAI durations. -/
def Epoch.beq (e other : Epoch) : Bool :=
  Duration.beq e.duration_since_j1900_tai other.duration_since_j1900_tai

/-- Rust `LEAP_SECONDS` (`src/epoch.rs` lines 55-98): `(TAI seconds since J1900,
offset, announced)`.  The `f64` thresholds are all integer-valued, hence
exactly representable; the fractional pre-1972 offsets are written as their
decimal values (they are flagged `announced = false` and never returned by the
`iers_only = true` queries the theorems below perform). -/
def LEAP_SECONDS : List (F64 × F64 × Bool) :=
  [ (F64.ofInt 1893369600, ⟨1417818, 1000000⟩, false)
  , (F64.ofInt 1924992000, ⟨1422818, 1000000⟩, false)
  , (F64.ofInt 1943308800, ⟨1372818, 1000000⟩, false)
  , (F64.ofInt 1956528000, ⟨1845858, 1000000⟩, false)
  , (F64.ofInt 2014329600, ⟨1945858, 1000000⟩, false)
  , (F64.ofInt 2019600000, ⟨324013, 100000⟩, false)
  , (F64.ofInt 2027462400, ⟨334013, 100000⟩, false)
  , (F64.ofInt 2040681600, ⟨344013, 100000⟩, false)
  , (F64.ofInt 2051222400, ⟨354013, 100000⟩, false)
  , (F64.ofInt 2056320000, ⟨364013, 100000⟩, false)
  , (F64.ofInt 2066860800, ⟨374013, 100000⟩, false)
  , (F64.ofInt 2072217600, ⟨384013, 100000⟩, false)
  , (F64.ofInt 2082758400, ⟨431317, 100000⟩, false)
  , (F64.ofInt 2148508800, ⟨421317, 100000⟩, false)
  , (F64.ofInt 2272060800, F64.ofInt 10, true)
  , (F64.ofInt 2287785600, F64.ofInt 11, true)
  , (F64.ofInt 2303683200, F64.ofInt 12, true)
  , (F64.ofInt 2335219200, F64.ofInt 13, true)
  , (F64.ofInt 2366755200, F64.ofInt 14, true)
  , (F64.ofInt 2398291200, F64.ofInt 15, true)
  , (F64.ofInt 2429913600, F64.ofInt 16, true)
  , (F64.ofInt 2461449600, F64.ofInt 17, true)
  , (F64.ofInt 2492985600, F64.ofInt 18, true)
  , (F64.ofInt 2524521600, F64.ofInt 19, true)
  , (F64.ofInt 2571782400, F64.ofInt 20, true)
  , (F64.ofInt 2603318400, F64.ofInt 21, true)
  , (F64.ofInt 2634854400, F64.ofInt 22, true)
  , (F64.ofInt 2698012800, F64.ofInt 23, true)
  , (F64.ofInt 2776982400, F64.ofInt 24, true)
  , (F64.ofInt 2840140800, F64.ofInt 25, true)
  , (F64.ofInt 2871676800, F64.ofInt 26, true)
  , (F64.ofInt 2918937600, F64.ofInt 27, true)
  , (F64.ofInt 2950473600, F64.ofInt 28, true)
  , (F64.ofInt 2982009600, F64.ofInt 29, true)
  , (F64.ofInt 3029443200, F64.ofInt 30, true)
  , (F64.ofInt 3076704000, F64.ofInt 31, true)
  , (F64.ofInt 3124137600, F64.ofInt 32, true)
  , (F64.ofInt 3345062400, F64.ofInt 33, true)
  , (F64.ofInt 3439756800, F64.ofInt 34, true)
  , (F64.ofInt 3550089600, F64.ofInt 35, true)
  , (F64.ofInt 3644697600, F64.ofInt 36, true)
  , (F64.ofInt 3692217600, F64.ofInt 37, true) ]

/-- Rust `Epoch::leap_seconds` (`src/epoch.rs` lines 1169-1176): scan the table in
reverse and return the offset of the first (i.e. last chronological) row whose
threshold is `≤` the epoch's TAI seconds, skipping unannounced rows when
`iers_only`. -/
def Epoch.leap_seconds (e : Epoch) (iers_only : Bool) : Option F64 :=
  (LEAP_SECONDS.reverse.find? fun r =>
      r.1.le e.duration_since_j1900_tai.to_seconds && (!iers_only || r.2.2)).map
    (fun r => r.2.1)

/-- Rust `Epoch::from_tai_duration` (`src/epoch.rs` lines 296-301). -/
def Epoch.from_tai_duration (duration : Duration) : Epoch := ⟨duration, .TAI⟩

/-- Rust `Epoch::from_tt_duration` (`src/epoch.rs` lines 449-454):
`duration - Unit::Millisecond * TT_OFFSET_MS` with `TT_OFFSET_MS = 32_184`. -/
def Epoch.from_tt_duration (duration : Duration) : Epoch :=
  ⟨Duration.sub duration (TimeUnit.Millisecond.mul_i64 32184), .TT⟩

/-- Placeholder for `Epoch::from_et_duration` (`src/epoch.rs` lines 475-498),
whose body is a Newton iteration over transcendental `f64` expressions and is
outside this embedding.  No theorem in this file evaluates `from_duration` or
`maybe_from_gregorian` at the `ET` scale; the defining equation below is *not*
the source semantics and exists only to keep the dispatching `match` total. -/
def Epoch.from_et_duration (duration : Duration) : Epoch := ⟨duration, .ET⟩

/-- Placeholder for `Epoch::from_tdb_duration` (`src/epoch.rs` lines 514-525);
same caveat as `Epoch.from_et_duration`: never evaluated by any theorem. -/
def Epoch.from_tdb_duration (duration : Duration) : Epoch := ⟨duration, .TDB⟩

/-- Rust `Epoch::from_duration` (`src/epoch.rs` lines 273-292).  In the generic arm
the epoch is referenced to TAI J1900, the leap seconds looked up at the raw
duration are added when the scale uses them, and the scale's fixed offset is
added via `Duration::from_f64(ts_offset as f64, Unit::Second)` (the `i64 → f64`
cast is exact: all offsets are below `2^53`). -/
def Epoch.from_duration (new_duration : Duration) (time_scale : TimeScale) : Epoch :=
  match time_scale with
  | .TAI => Epoch.from_tai_duration new_duration
  | .TT => Epoch.from_tt_duration new_duration
  | .ET => Epoch.from_et_duration new_duration
  | .TDB => Epoch.from_tdb_duration new_duration
  | ts =>
      let e := Epoch.from_tai_duration new_duration
      let e : Epoch :=
        if ts.uses_leap then
          let leaped :=
            Duration.add e.duration_since_j1900_tai
              (TimeUnit.Second.mul_f64 ((e.leap_seconds true).getD (F64.ofInt 0)))
          { e with duration_since_j1900_tai := leaped }
        else e
      let shifted :=
        Duration.add e.duration_since_j1900_tai
          (Duration.from_f64 (F64.ofInt ts.tai_j1900_offset_seconds_i64) TimeUnit.Second)
      { duration_since_j1900_tai := shifted, time_scale := ts }

/-- Rust `Epoch::to_ts_duration` (`src/epoch.rs` lines 1580-1588): subtract the leap
seconds (when the scale uses them) and then the scale's fixed offset
(`ts.tai_j1900_offset_seconds_i64() * Unit::Second`, the `i64` path). -/
def Epoch.to_ts_duration (e : Epoch) (ts : TimeScale) : Duration :=
  let duration := e.duration_since_j1900_tai
  let duration :=
    if ts.uses_leap then
      Duration.sub duration (TimeUnit.Second.mul_f64 ((e.leap_seconds true).getD (F64.ofInt 0)))
    else duration
  Duration.sub duration (TimeUnit.Second.mul_i64 ts.tai_j1900_offset_seconds_i64)

/-- Rust `Epoch::to_ts_nanoseconds` (`src/epoch.rs` lines 1590-1597): the
nanoseconds part of the scale duration, `Overflow` unless its centuries are
zero. -/
def Epoch.to_ts_nanoseconds (e : Epoch) (ts : TimeScale) : Except Errors Nat :=
  let p := (e.to_ts_duration ts).to_parts
  if p.1 ≠ 0 then .error .Overflow else .ok p.2

/-- Rust `Epoch::to_gpst_nanoseconds` (`src/epoch.rs` lines 1833-1835). -/
def Epoch.to_gpst_nanoseconds (e : Epoch) : Except Errors Nat :=
  e.to_ts_nanoseconds .GPST

/-- For `n ≥ 2^53` (and `n < 2^64`), the number of low bits beyond the 53-bit
`f64` mantissa: `log2 n - 52`, computed as a bounded search so that it reduces
by evaluation. -/
def u64_f64_shift (n : Nat) : Nat :=
  ((List.range 12).filter fun s => 2 ^ (53 + s) ≤ n).length

/-- Rust's `u64 as f64` conversion: round to nearest, ties to even, at 53
significant bits (exact below `2^53`). -/
def u64_as_f64 (n : Nat) : Nat :=
  if n < 2 ^ 53 then n
  else
    let shift := u64_f64_shift n
    let q := n / 2 ^ shift
    let r := n % 2 ^ shift
    let half := 2 ^ (shift - 1)
    if half < r ∨ (r = half ∧ q % 2 = 1) then (q + 1) * 2 ^ shift
    else q * 2 ^ shift

/-- Rust `Epoch::from_gpst_nanoseconds` (`src/epoch.rs` lines 565-567):
`from_duration(Duration::from_f64(nanoseconds as f64, Unit::Nanosecond), GPST)`.
The lossy `u64 as f64` cast is `u64_as_f64`. -/
def Epoch.from_gpst_nanoseconds (nanoseconds : Nat) : Epoch :=
  Epoch.from_duration
    (Duration.from_f64 (F64.ofInt (u64_as_f64 nanoseconds)) TimeUnit.Nanosecond)
    .GPST

/-- Rust `Epoch::from_gpst_days` (`src/epoch.rs` lines 554-559):
`from_duration(Duration::from_f64(days, Unit::Day), GPST)`. -/
def Epoch.from_gpst_days (days : F64) : Epoch :=
  Epoch.from_duration (Duration.from_f64 days TimeUnit.Day) .GPST

/-- Rust `Epoch::from_gst_days` (`src/epoch.rs` lines 577-583):
`from_duration(Duration::from_f64(days, Unit::Nanosecond), GST)` — note the
`Unit::Nanosecond` in the source. -/
def Epoch.from_gst_days (days : F64) : Epoch :=
  Epoch.from_duration (Duration.from_f64 days TimeUnit.Nanosecond) .GST

/-- Rust `Epoch::from_bdt_days` (`src/epoch.rs` lines 600-605):
`from_duration(Duration::from_f64(days, Unit::Day), BDT)`. -/
def Epoch.from_bdt_days (days : F64) : Epoch :=
  Epoch.from_duration (Duration.from_f64 days TimeUnit.Day) .BDT

/-- Rust `is_leap_year` (`src/epoch.rs` lines 2611-2613); Rust's `%` on `i32` is
truncated remainder, `Int.tmod`. -/
def is_leap_year (year : Int) : Bool :=
  (year.tmod 4 == 0 && year.tmod 100 != 0) || year.tmod 400 == 0

/-- Rust `january_years` (`src/epoch.rs` lines 101-121). -/
def january_years (year : Int) : Bool :=
  year == 1972 || year == 1973 || year == 1974 || year == 1975 || year == 1976 ||
  year == 1977 || year == 1978 || year == 1979 || year == 1980 || year == 1988 ||
  year == 1990 || year == 1991 || year == 1996 || year == 1999 || year == 2006 ||
  year == 2009 || year == 2017

/-- Rust `july_years` (`src/epoch.rs` lines 124-129). -/
def july_years (year : Int) : Bool :=
  year == 1972 || year == 1981 || year == 1982 || year == 1983 || year == 1985 ||
  year == 1992 || year == 1993 || year == 1994 || year == 1997 || year == 2012 ||
  year == 2015

/-- Rust `usual_days_per_month` (`src/epoch.rs` lines 135-142): zero-indexed month;
matches on `month + 1` (at `month = 255` the `u8` sum wraps to 0 and falls to
the `0` default, just like `month + 1 = 256` here). -/
def usual_days_per_month (month : Nat) : Nat :=
  match month + 1 with
  | 1 | 3 | 5 | 7 | 8 | 10 | 12 => 31
  | 4 | 6 | 9 | 11 => 30
  | 2 => 28
  | _ => 0

/-- Rust `CUMULATIVE_DAYS_FOR_MONTH` (`src/epoch.rs` lines 145-153): prefix sums of
the usual month lengths. -/
def CUMULATIVE_DAYS_FOR_MONTH (month : Nat) : Nat :=
  (List.range month).foldl (fun acc m => acc + usual_days_per_month m) 0

/-- Rust `NANOSECONDS_PER_SECOND_U32` (imported in `src/epoch.rs` from the crate
root, which is not under `src/`; spec §4.4 bounds nanoseconds by `10^9`). -/
def NANOSECONDS_PER_SECOND_U32 : Nat := 1000000000

/-- Rust `is_gregorian_valid` (`src/epoch.rs` lines 2571-2607).  `year + 1` is `i32`
arithmetic; at `year = i32::MAX` it wraps, but `january_years` rejects both the
wrapped and the mathematical successor, so exact arithmetic is faithful. -/
def is_gregorian_valid (year : Int) (month day hour minute second nanos : Nat) : Bool :=
  let max_seconds : Nat :=
    if (month == 12 || month == 6) && day == usual_days_per_month (month - 1)
        && hour == 23 && minute == 59
        && ((month == 6 && july_years year) || (month == 12 && january_years (year + 1))) then
      60
    else 59
  if month == 0 || month > 12 || day == 0 || day > 31 || hour > 24 || minute > 59
      || second > max_seconds || nanos > NANOSECONDS_PER_SECOND_U32 then
    false
  else if day > usual_days_per_month (month - 1) && (month != 2 || !is_leap_year year) then
    false
  else
    true

/-- Rust `J2000_TO_J1900_DURATION` (crate-root constant, not under `src/`; modelled
from the spec, §6: `3_155_716_800 s`). -/
def J2000_TO_J1900_DURATION : Duration := ⟨0, 3155716800 * 1000000000⟩

/-- Rust `Epoch::maybe_from_gregorian` (`src/epoch.rs` lines 654-716): validate,
accumulate the duration since J1900 built from years (with the leap-year
corrections), months, days and the time of day, subtract one second for a
leap second (`second == 60`), and dispatch on the time scale.  `i32`/`i64`
truncating divisions are `Int.tdiv`; `365 * years_since_1900` is `i32`
arithmetic (wrapping only beyond ±5.8 million years). -/
def Epoch.maybe_from_gregorian (year : Int) (month day hour minute second nanos : Nat)
    (ts : TimeScale) : Except Errors Epoch :=
  if ¬ is_gregorian_valid year month day hour minute second nanos then
    .error .Carry
  else
    let years_since_1900 := year - 1900
    let duration_wrt_1900 := TimeUnit.Day.mul_i64 (i32_wrap (365 * years_since_1900))
    let duration_wrt_1900 :=
      if years_since_1900 > 0 then
        let years_after_1900 := years_since_1900 - 1
        let d := duration_wrt_1900.add (TimeUnit.Day.mul_i64 (years_after_1900.tdiv 4))
        let d := d.sub (TimeUnit.Day.mul_i64 (years_after_1900.tdiv 100))
        d.add (TimeUnit.Day.mul_i64 ((years_after_1900 + 300).tdiv 400))
      else
        let d := duration_wrt_1900.add (TimeUnit.Day.mul_i64 (years_since_1900.tdiv 4))
        let d := d.sub (TimeUnit.Day.mul_i64 (years_since_1900.tdiv 100))
        d.add (TimeUnit.Day.mul_i64 ((years_since_1900 - 100).tdiv 400))
    let duration_wrt_1900 :=
      duration_wrt_1900.add (TimeUnit.Day.mul_i64 (CUMULATIVE_DAYS_FOR_MONTH (month - 1)))
    let duration_wrt_1900 :=
      if is_leap_year year && month > 2 then
        duration_wrt_1900.add (TimeUnit.Day.mul_i64 1)
      else duration_wrt_1900
    let time_of_day :=
      ((((TimeUnit.Day.mul_i64 ((day : Int) - 1)).add
            (TimeUnit.Hour.mul_i64 hour)).add
          (TimeUnit.Minute.mul_i64 minute)).add
        (TimeUnit.Second.mul_i64 second)).add
      (TimeUnit.Nanosecond.mul_i64 nanos)
    let duration_wrt_1900 := duration_wrt_1900.add time_of_day
    let duration_wrt_1900 :=
      if second == 60 then duration_wrt_1900.sub (TimeUnit.Second.mul_i64 1)
      else duration_wrt_1900
    match ts with
    | .TAI => .ok (Epoch.from_tai_duration duration_wrt_1900)
    | .TT => .ok (Epoch.from_tt_duration duration_wrt_1900)
    | .ET => .ok (Epoch.from_et_duration (duration_wrt_1900.sub J2000_TO_J1900_DURATION))
    | .TDB => .ok (Epoch.from_tdb_duration (duration_wrt_1900.sub J2000_TO_J1900_DURATION))
    | ts => .ok (Epoch.from_duration duration_wrt_1900 ts)

/-- Rust `Epoch::maybe_from_gregorian_tai` (`src/epoch.rs` lines 630-649). -/
def Epoch.maybe_from_gregorian_tai (year : Int) (month day hour minute second nanos : Nat) :
    Except Errors Epoch :=
  Epoch.maybe_from_gregorian year month day hour minute second nanos .TAI

/-- Rust `Epoch::maybe_from_gregorian_utc` (`src/epoch.rs` lines 762-781): build the
TAI epoch as though the civil date were TAI, then add the leap seconds looked
up at that provisional TAI instant, and tag the result UTC. -/
def Epoch.maybe_from_gregorian_utc (year : Int) (month day hour minute second nanos : Nat) :
    Except Errors Epoch :=
  match Epoch.maybe_from_gregorian_tai year month day hour minute second nanos with
  | .error e => .error e
  | .ok if_tai =>
      let leaped :=
        Duration.add if_tai.duration_since_j1900_tai
          (TimeUnit.Second.mul_f64 ((if_tai.leap_seconds true).getD (F64.ofInt 0)))
      .ok { duration_since_j1900_tai := leaped, time_scale := .UTC }

/-- Rust `Epoch::from_gregorian_tai_at_midnight` (`src/epoch.rs` lines 736-739);
the source unwraps (panicking on an invalid date), so the embedding keeps the
`Except` and the theorems exhibit the `.ok` value. -/
def Epoch.from_gregorian_tai_at_midnight (year : Int) (month day : Nat) :
    Except Errors Epoch :=
  Epoch.maybe_from_gregorian_tai year month day 0 0 0 0

/-- Rust `Epoch::from_gregorian_utc_at_midnight` (`src/epoch.rs` lines 801-804);
same `Except` convention as `from_gregorian_tai_at_midnight`. -/
def Epoch.from_gregorian_utc_at_midnight (year : Int) (month day : Nat) :
    Except Errors Epoch :=
  Epoch.maybe_from_gregorian_utc year month day 0 0 0 0

/-! ### General lemmas about the embedded arithmetic -/

/-- The numeral value of `NANOSECONDS_PER_CENTURY`. -/
theorem NANOSECONDS_PER_CENTURY_eq : NANOSECONDS_PER_CENTURY = 3155760000000000000 := rfl

theorem u64_sub_of_le (a b : Nat) (hb : b ≤ a) (ha : a < 2 ^ 64) :
    u64_sub a b = a - b := by
  unfold u64_sub
  omega

theorem u64_add_of_lt (a b : Nat) (h : a + b < 2 ^ 64) : u64_add a b = a + b := by
  unfold u64_add
  omega

theorem i16_wrap_of_bounds (x : Int) (h1 : -32768 ≤ x) (h2 : x ≤ 32767) :
    i16_wrap x = x := by
  unfold i16_wrap
  omega

/-- Rust `normalize` is the identity on strictly sub-century nanosecond counts. -/
theorem Duration.normalize_id (c : Int) (ns : Nat) (h : ns < NANOSECONDS_PER_CENTURY) :
    Duration.normalize ⟨c, ns⟩ = ⟨c, ns⟩ := by
  unfold Duration.normalize
  have hz : ns / NANOSECONDS_PER_CENTURY = 0 := Nat.div_eq_of_lt h
  simp [hz]

/-- Rust `normalize` carries exactly one century when the nanosecond field is in
`[NANOSECONDS_PER_CENTURY, 2 * NANOSECONDS_PER_CENTURY)` and the centuries have
room. -/
theorem Duration.normalize_carry (c : Int) (ns : Nat)
    (hns : NANOSECONDS_PER_CENTURY ≤ ns) (hns2 : ns < 2 * NANOSECONDS_PER_CENTURY)
    (hlo : -32767 ≤ c) (hhi : c ≤ 32766) :
    Duration.normalize ⟨c, ns⟩ = ⟨c + 1, ns - NANOSECONDS_PER_CENTURY⟩ := by
  unfold Duration.normalize i16_as_u64
  rw [NANOSECONDS_PER_CENTURY_eq] at *
  have hdiv : ns / 3155760000000000000 = 1 := by omega
  have hmod : ns % 3155760000000000000 = ns - 3155760000000000000 := by omega
  simp only [hdiv, hmod]
  split_ifs <;> (first | rfl | omega)

/-- On durations with `centuries ≥ -1` and a strictly sub-century nanosecond
field, `total_nanoseconds` is the linear value `centuries * NANOSECONDS_PER_CENTURY
+ nanoseconds`. -/
theorem Duration.total_nanoseconds_linear (d : Duration) (hc : -1 ≤ d.centuries)
    (hn : d.nanoseconds ≤ NANOSECONDS_PER_CENTURY) :
    d.total_nanoseconds = d.centuries * (NANOSECONDS_PER_CENTURY : Int) + d.nanoseconds := by
  unfold Duration.total_nanoseconds u64_sub
  rw [NANOSECONDS_PER_CENTURY_eq] at *
  split_ifs with h1 h2
  · rw [h1]; omega
  · rfl
  · omega

/-! ### C3: `from_total_nanoseconds` / `total_nanoseconds` -/

/-- C3 (counterexample): at `n = -(NANOSECONDS_PER_CENTURY + 1)` the floor
quotient is `-2`, well inside the `i16` range, yet the round trip returns `-1`
instead of `n`: the recomposition formula for `centuries < -1` is not the
inverse of the floor-division decomposition. -/
theorem from_total_total_roundtrip_fails :
    (-3155760000000000001 : Int) / (NANOSECONDS_PER_CENTURY : Int) = -2 ∧
    Duration.from_total_nanoseconds (-3155760000000000001) = ⟨-2, 3155759999999999999⟩ ∧
    (Duration.from_total_nanoseconds (-3155760000000000001)).total_nanoseconds = -1 ∧
    (-1 : Int) ≠ -3155760000000000001 := by
  refine ⟨by decide, by decide, by decide, by decide⟩

/-- C3 (amended): the round trip `total_nanoseconds ∘ from_total_nanoseconds`
is the identity exactly on the inputs whose floor quotient by
`NANOSECONDS_PER_CENTURY` lies in `[-1, 32767]` — i.e. `n ∈
[-NANOSECONDS_PER_CENTURY, 32768 * NANOSECONDS_PER_CENTURY)`. -/
theorem from_total_nanoseconds_total (n : Int)
    (hlo : -(NANOSECONDS_PER_CENTURY : Int) ≤ n)
    (hhi : n < 32768 * (NANOSECONDS_PER_CENTURY : Int)) :
    (Duration.from_total_nanoseconds n).total_nanoseconds = n := by
  have hN : (NANOSECONDS_PER_CENTURY : Int) = 3155760000000000000 := by
    norm_num [NANOSECONDS_PER_CENTURY_eq]
  rw [hN] at hlo hhi
  unfold Duration.from_total_nanoseconds Duration.from_parts
  rw [hN]
  dsimp only
  split_ifs with h0 hgt hlt
  · rw [h0]; decide
  · omega
  · omega
  · rw [Duration.normalize_id _ _ (by rw [NANOSECONDS_PER_CENTURY_eq]; omega)]
    rw [Duration.total_nanoseconds_linear _ (by dsimp only; omega)
        (by dsimp only; rw [NANOSECONDS_PER_CENTURY_eq]; omega)]
    dsimp only
    rw [hN]
    omega

/-- C3 (witness). -/
theorem from_total_nanoseconds_total_witness :
    (Duration.from_total_nanoseconds (-5)).total_nanoseconds = -5 :=
  from_total_nanoseconds_total (-5) (by decide) (by decide)

/-! ### C4: ordering vs `total_nanoseconds` -/

/-- C4 (counterexample): the derived lexicographic comparison does not agree
with the order of `total_nanoseconds`: the two zero-crossing representations
`(centuries = -1, nanoseconds = NANOSECONDS_PER_CENTURY)` and
`(centuries = 0, nanoseconds = 0)` have equal `total_nanoseconds` (and are
equal under the custom `PartialEq`), yet `cmp` orders the first strictly below
the second. -/
theorem cmp_total_nanoseconds_disagree :
    (Duration.mk (-1) NANOSECONDS_PER_CENTURY).total_nanoseconds
        = (Duration.mk 0 0).total_nanoseconds ∧
    Duration.beq ⟨-1, NANOSECONDS_PER_CENTURY⟩ ⟨0, 0⟩ = true ∧
    Duration.cmp ⟨-1, NANOSECONDS_PER_CENTURY⟩ ⟨0, 0⟩ = .lt := by
  refine ⟨by decide, by decide, by decide⟩

/-- C4 (amended): on durations with `centuries ≥ -1` and `nanoseconds <
NANOSECONDS_PER_CENTURY` the derived comparison is the lexicographic total
order and agrees with the order of `total_nanoseconds`; the agreement fails at
the `nanoseconds = NANOSECONDS_PER_CENTURY` zero-crossing representation and
for `centuries < -1`. -/
theorem cmp_eq_total_nanoseconds_cmp (d1 d2 : Duration)
    (hc1 : -1 ≤ d1.centuries) (hn1 : d1.nanoseconds < NANOSECONDS_PER_CENTURY)
    (hc2 : -1 ≤ d2.centuries) (hn2 : d2.nanoseconds < NANOSECONDS_PER_CENTURY) :
    Duration.cmp d1 d2 = ord_cmp_int d1.total_nanoseconds d2.total_nanoseconds := by
  rw [Duration.total_nanoseconds_linear d1 hc1 (le_of_lt hn1),
      Duration.total_nanoseconds_linear d2 hc2 (le_of_lt hn2)]
  unfold Duration.cmp ord_cmp_int ord_cmp_nat
  rw [NANOSECONDS_PER_CENTURY_eq] at *
  rcases d1 with ⟨c1, n1⟩
  rcases d2 with ⟨c2, n2⟩
  dsimp only at *
  split_ifs <;> simp_all <;> omega

/-- C4 (witness). -/
theorem cmp_eq_total_nanoseconds_cmp_witness :
    Duration.cmp ⟨-1, 5⟩ ⟨0, 5⟩
      = ord_cmp_int (Duration.mk (-1) 5).total_nanoseconds (Duration.mk 0 5).total_nanoseconds :=
  cmp_eq_total_nanoseconds_cmp ⟨-1, 5⟩ ⟨0, 5⟩ (by decide) (by decide) (by decide) (by decide)

/-! ### C5: `Duration::MIN + 4 × Duration::MIN_NEGATIVE` -/

/-- C5 (counterexample): `Duration::MIN + 4 × Duration::MIN_NEGATIVE` is not
`-5 ns`: the checked century addition `-32768 + (-1)` overflows and `Add`
returns `Duration::MAX` on any overflow, so the sum saturates to `MAX`, which
is not equal (even under the `PartialEq` with its zero-crossing cases) to
`-5 ns`. -/
theorem min_plus_four_min_negative_not_minus_five :
    Duration.add Duration.MIN (Duration.MIN_NEGATIVE.mul_i64 4) = Duration.MAX ∧
    Duration.beq Duration.MAX (TimeUnit.Nanosecond.mul_i64 (-5)) = false ∧
    Duration.MAX ≠ TimeUnit.Nanosecond.mul_i64 (-5) := by
  refine ⟨by decide, by decide, by decide⟩

/-- C5 (amended): with `MIN_NEGATIVE` in place of `MIN` (as in the repository's
own test), `Duration::MIN_NEGATIVE + 4 × Duration::MIN_NEGATIVE = -5 ns`
exactly; `Duration::MIN + 4 × Duration::MIN_NEGATIVE` saturates to
`Duration::MAX`. -/
theorem min_negative_plus_four_min_negative :
    Duration.add Duration.MIN_NEGATIVE (Duration.MIN_NEGATIVE.mul_i64 4)
        = TimeUnit.Nanosecond.mul_i64 (-5) ∧
    Duration.add Duration.MIN (Duration.MIN_NEGATIVE.mul_i64 4) = Duration.MAX := by
  refine ⟨by decide, by decide⟩

/-! ### C8: `signum` and the sign of `decompose` -/

/-- C8: for every duration with `centuries = 0` and `0 < nanoseconds`
(strictly positive, shorter than one century), `signum` is the sign of the
`centuries` field alone and returns `0` rather than `+1`, and the sign
component of `decompose` (which is `signum`) is likewise `0`. -/
theorem signum_zero_for_subcentury_positive (d : Duration)
    (hc : d.centuries = 0) (hpos : 0 < d.nanoseconds)
    (hsub : d.nanoseconds < NANOSECONDS_PER_CENTURY) :
    d.signum = 0 ∧ d.decompose.1 = 0 := by
  rcases d with ⟨c, ns⟩
  subst hc
  exact ⟨rfl, rfl⟩

/-- C8 (witness): five nanoseconds. -/
theorem signum_zero_for_subcentury_positive_witness :
    (Duration.mk 0 5).signum = 0 ∧ (Duration.mk 0 5).decompose.1 = 0 :=
  signum_zero_for_subcentury_positive ⟨0, 5⟩ rfl (by decide)
    (by show (5 : Nat) < NANOSECONDS_PER_CENTURY; rw [NANOSECONDS_PER_CENTURY_eq]; omega)

/-! ### C2: `(d1 + d2) - d2` -/

/-- Whether the nanosecond fields of two durations carry an extra century when
added. -/
def add_carry (d1 d2 : Duration) : Nat :=
  if NANOSECONDS_PER_CENTURY ≤ d1.nanoseconds + d2.nanoseconds then 1 else 0

/-- Evaluation of `Add` on normalized inputs when neither the checked century
addition nor the normalization saturates. -/
theorem Duration.add_eval (d1 d2 : Duration)
    (hn1 : d1.nanoseconds < NANOSECONDS_PER_CENTURY)
    (hn2 : d2.nanoseconds < NANOSECONDS_PER_CENTURY)
    (hlo : -32768 + (add_carry d1 d2 : Int) ≤ d1.centuries + d2.centuries)
    (hhi : d1.centuries + d2.centuries + (add_carry d1 d2 : Int) ≤ 32767) :
    Duration.add d1 d2
      = ⟨d1.centuries + d2.centuries + (add_carry d1 d2 : Int),
          d1.nanoseconds + d2.nanoseconds - add_carry d1 d2 * NANOSECONDS_PER_CENTURY⟩ := by
  rcases d1 with ⟨c1, n1⟩
  rcases d2 with ⟨c2, n2⟩
  unfold add_carry at *
  dsimp only at *
  unfold Duration.add i16_checked_add
  by_cases hcar : NANOSECONDS_PER_CENTURY ≤ n1 + n2
  · simp only [if_pos hcar, Nat.cast_one] at hlo hhi ⊢
    rw [if_pos (⟨by omega, by omega⟩ : -32768 ≤ c1 + c2 ∧ c1 + c2 ≤ 32767)]
    dsimp only
    rw [u64_add_of_lt _ _ (by rw [NANOSECONDS_PER_CENTURY_eq] at *; omega)]
    rw [Duration.normalize_carry _ _ hcar (by rw [NANOSECONDS_PER_CENTURY_eq] at *; omega)
        (by omega) (by omega)]
    congr 1
  · simp only [if_neg hcar, Nat.cast_zero] at hlo hhi ⊢
    rw [if_pos (⟨by omega, by omega⟩ : -32768 ≤ c1 + c2 ∧ c1 + c2 ≤ 32767)]
    dsimp only
    rw [u64_add_of_lt _ _ (by rw [NANOSECONDS_PER_CENTURY_eq] at *; omega)]
    rw [Duration.normalize_id _ _ (by omega)]
    congr 1
    omega

/-- C2 (counterexample): with `d1 = ⟨1, 5⟩` (one century plus 5 ns) and
`d2 = ⟨-1, 3⟩`, no saturating branch is taken anywhere in `(d1 + d2) - d2`,
yet the result is `⟨1, 6⟩ = d1 + 1 ns ≠ d1`: the zero-crossing `+1` correction
fires (minuend `⟨0, 8⟩` is non-negative, subtrahend negative, no borrow) and
changes the exact value of the difference. -/
theorem add_sub_roundtrip_fails :
    add_carry ⟨1, 5⟩ ⟨-1, 3⟩ = 0 ∧
    Duration.add ⟨1, 5⟩ ⟨-1, 3⟩ = ⟨0, 8⟩ ∧
    Duration.sub (Duration.add ⟨1, 5⟩ ⟨-1, 3⟩) ⟨-1, 3⟩ = ⟨1, 6⟩ ∧
    Duration.beq ⟨1, 6⟩ ⟨1, 5⟩ = false ∧
    (Duration.mk 1 6) ≠ ⟨1, 5⟩ := by
  refine ⟨by decide, by decide, by decide, by decide, by decide⟩

/-- C2 (amended): for normalized `d1`, `d2` (nanoseconds strictly below one
century), `(d1 + d2) - d2 = d1` whenever no saturating branch is taken — in
the checked century addition, the normalization after the addition, or the
checked century subtraction — *and* the subtraction does not take the
zero-crossing `+1` branch (minuend non-negative, subtrahend negative, no
nanosecond borrow); when that branch is taken the result exceeds `d1` by
exactly one nanosecond. -/
theorem add_sub_roundtrip (d1 d2 : Duration)
    (hc1l : -32768 ≤ d1.centuries) (hc1h : d1.centuries ≤ 32767)
    (hn1 : d1.nanoseconds < NANOSECONDS_PER_CENTURY)
    (hc2l : -32768 ≤ d2.centuries) (hc2h : d2.centuries ≤ 32767)
    (hn2 : d2.nanoseconds < NANOSECONDS_PER_CENTURY)
    (hlo : -32768 + (add_carry d1 d2 : Int) ≤ d1.centuries + d2.centuries)
    (hhi : d1.centuries + d2.centuries + (add_carry d1 d2 : Int) ≤ 32767)
    (hsub : d1.centuries + (add_carry d1 d2 : Int) ≤ 32767)
    (hnoplus : ¬ (0 ≤ (Duration.add d1 d2).centuries ∧ d2.centuries < 0 ∧
        d2.nanoseconds ≤ (Duration.add d1 d2).nanoseconds)) :
    Duration.sub (Duration.add d1 d2) d2 = d1 := by
  have hadd := Duration.add_eval d1 d2 hn1 hn2 hlo hhi
  rw [hadd] at hnoplus ⊢
  rcases d1 with ⟨c1, n1⟩
  rcases d2 with ⟨c2, n2⟩
  unfold add_carry at *
  dsimp only at *
  rw [NANOSECONDS_PER_CENTURY_eq] at *
  unfold Duration.sub i16_checked_sub
  by_cases hcar : (3155760000000000000 : Nat) ≤ n1 + n2
  · -- the nanosecond addition carried a century; the subtraction borrows it back
    simp only [if_pos hcar, Nat.cast_one] at hlo hhi hsub hnoplus ⊢
    rw [if_pos (⟨by omega, by omega⟩ :
        -32768 ≤ c1 + c2 + 1 - c2 ∧ c1 + c2 + 1 - c2 ≤ 32767)]
    dsimp only
    rw [if_pos (show n1 + n2 - 1 * 3155760000000000000 < n2 by omega)]
    rw [u64_add_of_lt _ _ (by rw [NANOSECONDS_PER_CENTURY_eq]; omega)]
    rw [NANOSECONDS_PER_CENTURY_eq]
    rw [u64_sub_of_le _ _ (by omega) (by omega)]
    rw [i16_wrap_of_bounds _ (by omega) (by omega)]
    rw [show c1 + c2 + 1 - c2 - 1 = c1 by ring,
        show n1 + n2 - 1 * 3155760000000000000 + 3155760000000000000 - n2 = n1 by omega]
    exact Duration.normalize_id c1 n1 (by rw [NANOSECONDS_PER_CENTURY_eq]; omega)
  · -- no carry, no borrow, and the `+1` branch is excluded by hypothesis
    simp only [if_neg hcar, Nat.cast_zero] at hlo hhi hsub hnoplus ⊢
    rw [if_pos (⟨by omega, by omega⟩ :
        -32768 ≤ c1 + c2 + 0 - c2 ∧ c1 + c2 + 0 - c2 ≤ 32767)]
    dsimp only
    rw [if_neg (show ¬(n1 + n2 - 0 * 3155760000000000000 < n2) by omega)]
    rw [if_neg (show ¬(c1 + c2 + 0 ≥ 0 ∧ c2 < 0) from fun h => hnoplus ⟨h.1, h.2, by omega⟩)]
    rw [show c1 + c2 + 0 - c2 = c1 by ring,
        show n1 + n2 - 0 * 3155760000000000000 - n2 = n1 by omega]
    exact Duration.normalize_id c1 n1 (by rw [NANOSECONDS_PER_CENTURY_eq]; omega)

/-- C2 (witness). -/
theorem add_sub_roundtrip_witness :
    Duration.sub (Duration.add ⟨0, 5⟩ ⟨0, 3⟩) ⟨0, 3⟩ = ⟨0, 5⟩ :=
  add_sub_roundtrip ⟨0, 5⟩ ⟨0, 3⟩ (by decide) (by decide) (by decide) (by decide)
    (by decide) (by decide) (by decide) (by decide) (by decide) (by decide)

/-! ### C6: the 10-second TAI/UTC gap at 1972-01-01 -/

/-- C6: `from_gregorian_utc_at_midnight(1972,1,1)` minus
`from_gregorian_tai_at_midnight(1972,1,1)` is exactly `10 * Unit::Second`.
The UTC construction first builds the TAI duration (2_272_060_800 s), then
adds the leap-second offset looked up at that provisional TAI instant; the
1972-01-01 row's threshold comparison (`to_seconds ≥ 2_272_060_800`) is
inclusive and yields the 10-second jump. -/
theorem utc_tai_midnight_1972_gap :
    Epoch.leap_seconds ⟨⟨0, 2272060800000000000⟩, .TAI⟩ true = some (F64.ofInt 10) ∧
    Epoch.from_gregorian_tai_at_midnight 1972 1 1 = .ok ⟨⟨0, 2272060800000000000⟩, .TAI⟩ ∧
    Epoch.from_gregorian_utc_at_midnight 1972 1 1 = .ok ⟨⟨0, 2272060810000000000⟩, .UTC⟩ ∧
    Epoch.sub ⟨⟨0, 2272060810000000000⟩, .UTC⟩ ⟨⟨0, 2272060800000000000⟩, .TAI⟩
      = TimeUnit.Second.mul_i64 10 := by
  refine ⟨by decide, by decide, by decide, by decide⟩

/-! ### C9: `from_gst_days` interprets its argument in nanoseconds -/

/-- C9: `Epoch::from_gst_days(x)` is
`from_duration(Duration::from_f64(x, Unit::Nanosecond), GST)` for every scalar
`x` — its argument is interpreted in *nanoseconds*; in particular
`from_gst_days(1)` is exactly one nanosecond past the GST reference epoch
(`from_duration(ZERO, GST)`), and differs from the day-based interpretation
that the analogous `from_gpst_days`/`from_bdt_days` use with `Unit::Day`. -/
theorem from_gst_days_uses_nanoseconds :
    (∀ x : F64, Epoch.from_gst_days x
        = Epoch.from_duration (Duration.from_f64 x TimeUnit.Nanosecond) .GST) ∧
    Epoch.from_gst_days (F64.ofInt 1) = ⟨⟨0, 3144268819000000001⟩, .GST⟩ ∧
    (Epoch.from_gst_days (F64.ofInt 1)).duration_since_j1900_tai
      = Duration.add
          (Epoch.from_duration Duration.ZERO .GST).duration_since_j1900_tai
          Duration.EPSILON ∧
    Epoch.from_gst_days (F64.ofInt 1)
      ≠ Epoch.from_duration (Duration.from_f64 (F64.ofInt 1) TimeUnit.Day) .GST ∧
    (∀ x : F64, Epoch.from_gpst_days x
        = Epoch.from_duration (Duration.from_f64 x TimeUnit.Day) .GPST) ∧
    (∀ x : F64, Epoch.from_bdt_days x
        = Epoch.from_duration (Duration.from_f64 x TimeUnit.Day) .BDT) := by
  refine ⟨fun _ => rfl, by decide, by decide, by decide, fun _ => rfl, fun _ => rfl⟩

/-! ### C1: the GPST nanosecond round trip -/

/-- C1: evaluation at the failing input.  The epoch `e` with TAI duration
`⟨0, 2_524_953_619_000_000_000 + (2^53 + 1)⟩` lies `2^53 + 1` nanoseconds past
the GPS reference epoch, with zero GPST centuries, so `to_gpst_nanoseconds`
returns `Ok(2^53 + 1)`; but `from_gpst_nanoseconds(2^53 + 1)` rounds the
count through `f64` (`u64 as f64` is round-to-nearest-even at 53 bits, and
`2^53 + 1` rounds down to `2^53`) and rebuilds an epoch one nanosecond
earlier, so the round trip is not the identity. -/
theorem gpst_nanoseconds_roundtrip_defect :
    u64_as_f64 9007199254740993 = 9007199254740992 ∧
    Epoch.to_gpst_nanoseconds ⟨⟨0, 2533960818254740993⟩, .GPST⟩ = .ok 9007199254740993 ∧
    Epoch.from_gpst_nanoseconds 9007199254740993 = ⟨⟨0, 2533960818254740992⟩, .GPST⟩ ∧
    Epoch.beq (Epoch.from_gpst_nanoseconds 9007199254740993)
      ⟨⟨0, 2533960818254740993⟩, .GPST⟩ = false ∧
    Epoch.from_gpst_nanoseconds 9007199254740993 ≠ ⟨⟨0, 2533960818254740993⟩, .GPST⟩ := by
  refine ⟨by decide, by decide, by decide, by decide, by decide⟩

/-! ### C7: `is_gregorian_valid` -/

/-- The validity predicate exactly as the claim states it: month 1–12, day 1
through the days in that month (29-day February in leap years), hour 0–24,
minute 0–59, second 0–59 or 60 only at 23:59 on June 30 of a July
leap-second year or December 31 preceding a January leap-second year, and
nanoseconds strictly below `10^9`. -/
def gregorian_valid_claim (year : Int) (month day hour minute second nanos : Nat) : Prop :=
  1 ≤ month ∧ month ≤ 12 ∧
  1 ≤ day ∧
  day ≤ (if month = 2 ∧ is_leap_year year = true then 29 else usual_days_per_month (month - 1)) ∧
  hour ≤ 24 ∧ minute ≤ 59 ∧
  (second ≤ 59 ∨
    (second = 60 ∧ hour = 23 ∧ minute = 59 ∧
      ((month = 6 ∧ day = 30 ∧ july_years year = true) ∨
        (month = 12 ∧ day = 31 ∧ january_years (year + 1) = true)))) ∧
  nanos < 1000000000

/-- The claim's predicate amended to what the code actually accepts: in a
leap-year February any day up to 31 passes (the refined day check is skipped),
and `nanos = 10^9` exactly is accepted (the test is `>`, not `≥`). -/
def gregorian_valid_amended (year : Int) (month day hour minute second nanos : Nat) : Prop :=
  1 ≤ month ∧ month ≤ 12 ∧
  1 ≤ day ∧
  day ≤ (if month = 2 ∧ is_leap_year year = true then 31 else usual_days_per_month (month - 1)) ∧
  hour ≤ 24 ∧ minute ≤ 59 ∧
  (second ≤ 59 ∨
    (second = 60 ∧ hour = 23 ∧ minute = 59 ∧
      ((month = 6 ∧ day = 30 ∧ july_years year = true) ∨
        (month = 12 ∧ day = 31 ∧ january_years (year + 1) = true)))) ∧
  nanos ≤ 1000000000

/-- C7 (counterexample): the code accepts 2000-02-30 (a leap-year February
day beyond 29) and a nanosecond field of exactly `10^9`, both of which the
claim's predicate rejects. -/
theorem is_gregorian_valid_claim_mismatch :
    is_gregorian_valid 2000 2 30 0 0 0 0 = true ∧
    ¬ gregorian_valid_claim 2000 2 30 0 0 0 0 ∧
    is_gregorian_valid 2000 1 1 0 0 0 1000000000 = true ∧
    ¬ gregorian_valid_claim 2000 1 1 0 0 0 1000000000 := by
  refine ⟨by decide, ?_, by decide, ?_⟩ <;> (unfold gregorian_valid_claim; decide)

/-- C7 (amended): `is_gregorian_valid` returns `true` exactly on the amended
predicate, for every input. -/
theorem is_gregorian_valid_iff (year : Int) (month day hour minute second nanos : Nat) :
    is_gregorian_valid year month day hour minute second nanos = true ↔
      gregorian_valid_amended year month day hour minute second nanos := by
  by_cases hm0 : month = 0
  · subst hm0
    simp [is_gregorian_valid, gregorian_valid_amended]
  by_cases hm13 : 13 ≤ month
  · constructor
    · intro h
      exfalso
      unfold is_gregorian_valid at h
      rw [if_pos (by simp; omega)] at h
      exact Bool.false_ne_true h
    · intro h
      exact absurd h.2.1 (by omega)
  have hm1 : 1 ≤ month := by omega
  have hm2 : month ≤ 12 := by omega
  interval_cases month <;>
    cases hL : is_leap_year year <;>
    cases hJ : july_years year <;>
    cases hN : january_years (year + 1) <;>
    (simp [is_gregorian_valid, gregorian_valid_amended, usual_days_per_month,
        NANOSECONDS_PER_SECOND_U32, hL, hJ, hN]) <;>
    (try split_ifs) <;>
    omega
